import Mathlib

/-!
# schmorp.h: `s_signum`, `s_signum_croak` and the emulated `s_pipe`

A shallow embedding of three functions of `src/schmorp.h`.

* `s_signum` / `s_signum_croak` (lines 71-108) are pure functions of the
  scalar they receive and of the interpreter's signal-name table.
* `s_pipe` (lines 203-283, the `_WIN32` branch) is a straight-line sequence
  of Winsock calls.  The calls themselves are not part of the repository:
  they are modelled by small state transformers over a `World` (the set of
  open sockets, `errno`, the C runtime descriptor table and a log of the
  calls issued), whose success or failure is dictated by an `Oracle`.

What is assumed of the environment, in the `os_*` definitions:

* a failing call stores its error code in `errno` and a successful call
  leaves `errno` alone;
* a call on a handle that is not an open socket (`INVALID_SOCKET` among
  them) fails with `WSAENOTSOCK`;
* `socket` and `accept` open the handle they return, `closesocket` closes
  it when it succeeds.

What the headers declare and the source only names (`SOCKET`, `AF_INET`,
`WSAEINVAL`, `SIG_SIZE`, `PL_sig_name`, the width of `IV`, ...) is a
parameter, in `Platform` and `PerlConfig`.
-/

namespace Schmorp

/-! ## Signal lookup -/

/-- The two views of a Perl scalar that `s_signum` reads: the C string
returned by `SvPV_nolen` and the integer returned by `SvIV` (an `IV`).
The scalar is one without get-magic: every read sees the same two values.
A tied scalar, fetched again at each `SvPV_nolen` and `SvIV`, is not
covered. -/
structure SV where
  pv : String
  iv : Int
  deriving DecidableEq

/-- What `s_signum` takes from the Perl headers: `SIG_SIZE` and the table
`PL_sig_name`, and the width of the type `IV`. -/
structure PerlConfig where
  SIG_SIZE : Nat
  PL_sig_name : Nat → String
  ivBits : Nat

/-- The values an `IV` can hold. -/
abbrev PerlConfig.fitsIV (c : PerlConfig) (x : Int) : Prop :=
  -(2 : Int) ^ (c.ivBits - 1) ≤ x ∧ x < (2 : Int) ^ (c.ivBits - 1)

/-- Conversion of an `IV` to the 32-bit `int` variable `signum`
(`signum = SvIV (sig)`, line 88). -/
def int_of_IV (x : Int) : Int :=
  (x + 2147483648) % 4294967296 - 2147483648

/-- The loop of lines 84-86, `n` iterations left, starting at `signum`:
`for (...; signum < SIG_SIZE; ++signum) if (strEQ (...)) return signum;`. -/
def s_signum_scan (c : PerlConfig) (sig : SV) : Nat → Nat → Option Nat
  | 0, _ => none
  | n + 1, signum =>
    if sig.pv = c.PL_sig_name signum then some signum
    else s_signum_scan c sig n (signum + 1)

/-- Function `s_signum` (lines 71-94). -/
def s_signum (c : PerlConfig) (sig : SV) : Int :=
  match s_signum_scan c sig (c.SIG_SIZE - 1) 1 with
  | some signum => (signum : Int)
  | none =>
    let signum := int_of_IV sig.iv
    if signum > 0 ∧ signum < (c.SIG_SIZE : Int) then signum else -1

/-- Function `s_signum_croak` (lines 96-108); `croak` is the error result. -/
def s_signum_croak (c : PerlConfig) (sig : SV) : Except String Int :=
  let signum := s_signum c sig
  if signum < 0 then
    Except.error (sig.pv ++ ": invalid signal name or number")
  else Except.ok signum

/-! ## The emulated pipe -/

/-- Build parameters of the `_WIN32` branch: the declaration of `SOCKET`
(width and signedness), whether `USE_SOCKETS_AS_HANDLES` is defined, and the
constants of the Winsock headers that `s_pipe` names. -/
structure Platform where
  sockBits : Nat
  sockSigned : Bool
  USE_SOCKETS_AS_HANDLES : Bool
  AF_INET : Int
  SOCK_STREAM : Int
  INADDR_LOOPBACK : Nat
  htonl : Nat → Nat
  sizeof_sockaddr_in : Int
  WSAEINVAL : Int
  WSAENOTSOCK : Int

/-- `INVALID_SOCKET`, that is `(SOCKET)(~0)`: the all-ones bit pattern. -/
def INVALID_SOCKET (p : Platform) : Nat := 2 ^ p.sockBits - 1

/-- The test `x < 0` on a value of type `SOCKET` (bit pattern `x`): never
true for an unsigned `SOCKET`, the sign bit for a signed one. -/
def SOCKET_lt_zero (p : Platform) (x : Nat) : Bool :=
  p.sockSigned && decide (2 ^ (p.sockBits - 1) ≤ x)

/-- Conversion of a `SOCKET` to `int` (`filedes [0] = sock [0]`). -/
def int_of_SOCKET (x : Nat) : Int :=
  ((x : Int) + 2147483648) % 4294967296 - 2147483648

/-- The fields of `struct sockaddr_in` that `s_pipe` reads or writes. -/
structure sockaddr_in where
  sin_family : Int
  sin_port : Nat
  sin_addr : Nat
  deriving DecidableEq

/-- One call issued to the socket layer or the C runtime, with its arguments
and its return value. -/
inductive Event where
  | socket (af type protocol : Int) (ret : Nat)
  | bind (s : Nat) (name : sockaddr_in) (namelen : Int) (ret : Int)
  | getsockname (s : Nat) (namelen : Int) (ret : Int)
  | listen (s : Nat) (backlog : Int) (ret : Int)
  | connect (s : Nat) (name : sockaddr_in) (namelen : Int) (ret : Int)
  | accept (s : Nat) (ret : Nat)
  | getpeername (s : Nat) (namelen : Int) (ret : Int)
  | closesocket (s : Nat) (ret : Int)
  | open_osfhandle (h : Nat) (flags : Int) (ret : Int)
  deriving DecidableEq

/-- The state outside `s_pipe`: the open sockets, `errno`, the descriptors
handed out by `_open_osfhandle` and the log of calls. -/
structure World where
  sockets : List Nat
  errno : Int
  fds : List (Int × Nat)
  trace : List Event

/-- The outcome the environment gives to each call of `s_pipe`, in program
order: `Except.error e` is a failure that sets `errno` to `e`. -/
structure Oracle where
  socketL : Except Int Nat
  bindL : Except Int Unit
  nameL : Except Int (sockaddr_in × Int)
  listenL : Except Int Unit
  socket0 : Except Int Nat
  connect0 : Except Int Unit
  accept1 : Except Int Nat
  peer0 : Except Int (sockaddr_in × Int)
  name1 : Except Int (sockaddr_in × Int)
  closeL : Except Int Unit
  close0 : Except Int Unit
  close1 : Except Int Unit
  osf0 : Except Int Int
  osf1 : Except Int Int

def World.log (w : World) (e : Event) : World :=
  { w with trace := w.trace ++ [e] }

/-- A handle names a socket when it is not `INVALID_SOCKET` and is open. -/
def World.isSocket (p : Platform) (w : World) (s : Nat) : Bool :=
  decide (s ≠ INVALID_SOCKET p) && decide (s ∈ w.sockets)

/-- Environment: `socket`.  Success opens the handle the oracle names. -/
def os_socket (p : Platform) (r : Except Int Nat) (af ty proto : Int)
    (w : World) : Nat × World :=
  match r with
  | .ok h =>
    (h, { w with sockets := h :: w.sockets,
                 trace := w.trace ++ [Event.socket af ty proto h] })
  | .error e =>
    (INVALID_SOCKET p,
      { w with errno := e,
               trace := w.trace ++ [Event.socket af ty proto (INVALID_SOCKET p)] })

/-- Environment: the common shape of `bind`, `listen` and `connect`:
0 on success, `SOCKET_ERROR` with `errno` set on failure; a handle that is
not a socket fails with `WSAENOTSOCK`. -/
def os_status (p : Platform) (r : Except Int Unit) (s : Nat)
    (ev : Int → Event) (w : World) : Int × World :=
  if w.isSocket p s then
    match r with
    | .ok _ => (0, w.log (ev 0))
    | .error e => (-1, { w with errno := e, trace := w.trace ++ [ev (-1)] })
  else (-1, { w with errno := p.WSAENOTSOCK, trace := w.trace ++ [ev (-1)] })

/-- Environment: `getsockname` and `getpeername`.  On success the address
and its length are stored through the two pointers. -/
def os_name (p : Platform) (r : Except Int (sockaddr_in × Int)) (s : Nat)
    (ev : Int → Event) (name : sockaddr_in) (namelen : Int) (w : World) :
    Int × sockaddr_in × Int × World :=
  if w.isSocket p s then
    match r with
    | .ok (a, n) => (0, a, n, w.log (ev 0))
    | .error e =>
      (-1, name, namelen, { w with errno := e, trace := w.trace ++ [ev (-1)] })
  else
    (-1, name, namelen,
      { w with errno := p.WSAENOTSOCK, trace := w.trace ++ [ev (-1)] })

/-- Environment: `accept`.  Success opens the handle the oracle names. -/
def os_accept (p : Platform) (r : Except Int Nat) (s : Nat) (w : World) :
    Nat × World :=
  if w.isSocket p s then
    match r with
    | .ok h =>
      (h, { w with sockets := h :: w.sockets,
                   trace := w.trace ++ [Event.accept s h] })
    | .error e =>
      (INVALID_SOCKET p,
        { w with errno := e,
                 trace := w.trace ++ [Event.accept s (INVALID_SOCKET p)] })
  else
    (INVALID_SOCKET p,
      { w with errno := p.WSAENOTSOCK,
               trace := w.trace ++ [Event.accept s (INVALID_SOCKET p)] })

/-- Environment: `closesocket`.  Success removes the handle from the open
sockets; a failure leaves it open and sets `errno`. -/
def os_closesocket (p : Platform) (r : Except Int Unit) (s : Nat)
    (w : World) : Int × World :=
  if w.isSocket p s then
    match r with
    | .ok _ =>
      (0, { w with sockets := w.sockets.erase s,
                   trace := w.trace ++ [Event.closesocket s 0] })
    | .error e =>
      (-1, { w with errno := e,
                    trace := w.trace ++ [Event.closesocket s (-1)] })
  else
    (-1, { w with errno := p.WSAENOTSOCK,
                  trace := w.trace ++ [Event.closesocket s (-1)] })

/-- Environment: `_open_osfhandle`.  Success records the new descriptor;
failure returns -1 and sets `errno`. -/
def os_open_osfhandle (r : Except Int Int) (h : Nat) (flags : Int)
    (w : World) : Int × World :=
  match r with
  | .ok fd =>
    (fd, { w with fds := (fd, h) :: w.fds,
                  trace := w.trace ++ [Event.open_osfhandle h flags fd] })
  | .error e =>
    (-1, { w with errno := e,
                  trace := w.trace ++ [Event.open_osfhandle h flags (-1)] })

/-- The `fail:` label of `s_pipe` (lines 276-282). -/
def s_pipe_fail (p : Platform) (o : Oracle) (filedes : Int × Int)
    (listener sock0 sock1 : Nat) (w : World) : Int × (Int × Int) × World :=
  let w := (os_closesocket p o.closeL listener w).2
  let w := if sock0 ≠ INVALID_SOCKET p then
      (os_closesocket p o.close0 sock0 w).2 else w
  let w := if sock1 ≠ INVALID_SOCKET p then
      (os_closesocket p o.close1 sock1 w).2 else w
  (-1, filedes, w)

/-- Function `s_pipe` (lines 203-283).  The result is the return value, the
caller's `filedes` array and the world after the call. -/
def s_pipe (p : Platform) (o : Oracle) (filedes : Int × Int) (w : World) :
    Int × (Int × Int) × World :=
  let addr : sockaddr_in := ⟨0, 0, 0⟩
  let addr_size : Int := p.sizeof_sockaddr_in
  let adr2 : sockaddr_in := ⟨0, 0, 0⟩
  let adr2_size : Int := p.sizeof_sockaddr_in
  -- `SOCKET sock [2] = { -1, -1 }`: -1 converted to `SOCKET` is all ones
  let sock0 : Nat := INVALID_SOCKET p
  let sock1 : Nat := INVALID_SOCKET p
  let (listener, w) := os_socket p o.socketL p.AF_INET p.SOCK_STREAM 0 w
  if listener = INVALID_SOCKET p then (-1, filedes, w) else
  let addr : sockaddr_in :=
    { addr with sin_family := p.AF_INET,
                sin_addr := p.htonl p.INADDR_LOOPBACK,
                sin_port := 0 }
  let (r, w) := os_status p o.bindL listener
    (Event.bind listener addr addr_size) w
  if r ≠ 0 then s_pipe_fail p o filedes listener sock0 sock1 w else
  let (r, addr, addr_size, w) := os_name p o.nameL listener
    (Event.getsockname listener addr_size) addr addr_size w
  if r ≠ 0 then s_pipe_fail p o filedes listener sock0 sock1 w else
  let (r, w) := os_status p o.listenL listener (Event.listen listener 1) w
  if r ≠ 0 then s_pipe_fail p o filedes listener sock0 sock1 w else
  let (sock0, w) := os_socket p o.socket0 p.AF_INET p.SOCK_STREAM 0 w
  if sock0 = INVALID_SOCKET p then
    s_pipe_fail p o filedes listener sock0 sock1 w else
  let (r, w) := os_status p o.connect0 sock0
    (Event.connect sock0 addr addr_size) w
  if r ≠ 0 then s_pipe_fail p o filedes listener sock0 sock1 w else
  let (sock1, w) := os_accept p o.accept1 listener w
  if SOCKET_lt_zero p sock1 then
    s_pipe_fail p o filedes listener sock0 sock1 w else
  let (r, addr, addr_size, w) := os_name p o.peer0 sock0
    (Event.getpeername sock0 addr_size) addr addr_size w
  if r ≠ 0 then s_pipe_fail p o filedes listener sock0 sock1 w else
  let (r, adr2, adr2_size, w) := os_name p o.name1 sock1
    (Event.getsockname sock1 adr2_size) adr2 adr2_size w
  if r ≠ 0 then s_pipe_fail p o filedes listener sock0 sock1 w else
  let w := { w with errno := p.WSAEINVAL }
  if addr_size ≠ adr2_size
      ∨ addr.sin_addr ≠ adr2.sin_addr
      ∨ addr.sin_port ≠ adr2.sin_port then
    s_pipe_fail p o filedes listener sock0 sock1 w else
  let w := (os_closesocket p o.closeL listener w).2
  if p.USE_SOCKETS_AS_HANDLES then
    (0, (int_of_SOCKET sock0, int_of_SOCKET sock1), w)
  else
    let (fd0, w) := os_open_osfhandle o.osf0 sock0 0 w
    let (fd1, w) := os_open_osfhandle o.osf1 sock1 0 w
    (0, (fd0, fd1), w)

/-! ### Observations on a run -/

/-- The calls one invocation issues, in order: what the run appends to the
log. -/
def s_pipe_calls (p : Platform) (o : Oracle) (filedes : Int × Int)
    (w : World) : List Event :=
  (s_pipe p o filedes w).2.2.trace.drop w.trace.length

/-- The handles a log shows as acquired (a `socket` or `accept` that did not
return `INVALID_SOCKET`), in order of acquisition. -/
def openedHandles (p : Platform) : List Event → List Nat
  | [] => []
  | Event.socket _ _ _ r :: t =>
    if r = INVALID_SOCKET p then openedHandles p t else r :: openedHandles p t
  | Event.accept _ r :: t =>
    if r = INVALID_SOCKET p then openedHandles p t else r :: openedHandles p t
  | _ :: t => openedHandles p t

/-- The handles a log shows as passed to `closesocket`, in order. -/
def closedHandles : List Event → List Nat
  | [] => []
  | Event.closesocket s _ :: t => s :: closedHandles t
  | _ :: t => closedHandles t

/-- Whether an event is one of the calls that establish the connection or
query an address (everything but `closesocket` and `_open_osfhandle`). -/
def Event.isSetup : Event → Bool
  | Event.closesocket _ _ => false
  | Event.open_osfhandle _ _ _ => false
  | _ => true

/-- The handle a successful `socket` or `accept` outcome names. -/
def okHandle : Except Int Nat → List Nat
  | .ok h => [h]
  | .error _ => []

/-- The handles the environment hands out during one call. -/
def Oracle.handles (o : Oracle) : List Nat :=
  okHandle o.socketL ++ okHandle o.socket0 ++ okHandle o.accept1

/-- The environment hands out handles that are pairwise distinct and are
not `INVALID_SOCKET`. -/
abbrev Oracle.Fresh (p : Platform) (o : Oracle) : Prop :=
  o.handles.Nodup ∧ INVALID_SOCKET p ∉ o.handles

/-- Every `closesocket` succeeds. -/
def Oracle.closesSucceed (o : Oracle) : Prop :=
  o.closeL = .ok () ∧ o.close0 = .ok () ∧ o.close1 = .ok ()

/-- The socket a returned descriptor denotes: the descriptor itself when
sockets are used as handles, otherwise the handle `_open_osfhandle`
associated with it. -/
def endpointSocket (p : Platform) (w : World) (fd : Int) : Option Nat :=
  if p.USE_SOCKETS_AS_HANDLES then
    (if 0 ≤ fd then some fd.toNat else none)
  else w.fds.lookup fd

/-- The error codes the environment may leave in `errno`. -/
def errCode {α : Type} : Except Int α → List Int
  | .ok _ => []
  | .error e => [e]

def Oracle.codes (p : Platform) (o : Oracle) : List Int :=
  p.WSAENOTSOCK :: (errCode o.socketL ++ errCode o.bindL ++ errCode o.nameL
    ++ errCode o.listenL ++ errCode o.socket0 ++ errCode o.connect0
    ++ errCode o.accept1 ++ errCode o.peer0 ++ errCode o.name1
    ++ errCode o.closeL ++ errCode o.close0 ++ errCode o.close1
    ++ errCode o.osf0 ++ errCode o.osf1)

/-- No handle handed out is negative as a `SOCKET` (vacuous when `SOCKET` is
unsigned). -/
abbrev Oracle.nonNegative (p : Platform) (o : Oracle) : Prop :=
  ∀ h ∈ o.handles, SOCKET_lt_zero p h = false

/-- Every call up to and including the two address queries succeeds: the
handles returned are sockets, the peer of the first endpoint is observed as
`a` (length `n`) and the local name of the second as `a2` (length `n2`). -/
def Oracle.setupSucceeds (p : Platform) (o : Oracle)
    (a : sockaddr_in) (n : Int) (a2 : sockaddr_in) (n2 : Int) : Prop :=
  ∃ l aL s0 s1,
    o.socketL = .ok l ∧ l ≠ INVALID_SOCKET p ∧ o.bindL = .ok () ∧
    o.nameL = .ok aL ∧ o.listenL = .ok () ∧
    o.socket0 = .ok s0 ∧ s0 ≠ INVALID_SOCKET p ∧ o.connect0 = .ok () ∧
    o.accept1 = .ok s1 ∧ s1 ≠ INVALID_SOCKET p ∧ SOCKET_lt_zero p s1 = false ∧
    o.peer0 = .ok (a, n) ∧ o.name1 = .ok (a2, n2)

/-- The code of the first failing call among those issued before `accept`
(`socket`, `bind`, `getsockname`, `listen`, `socket`, `connect`), if one of
them fails. -/
def Oracle.firstFailure (o : Oracle) : Option Int :=
  match o.socketL, o.bindL, o.nameL, o.listenL, o.socket0, o.connect0 with
  | .error e, _, _, _, _, _ => some e
  | .ok _, .error e, _, _, _, _ => some e
  | .ok _, .ok _, .error e, _, _, _ => some e
  | .ok _, .ok _, .ok _, .error e, _, _ => some e
  | .ok _, .ok _, .ok _, .ok _, .error e, _ => some e
  | .ok _, .ok _, .ok _, .ok _, .ok _, .error e => some e
  | .ok _, .ok _, .ok _, .ok _, .ok _, .ok _ => none

/-! ### Concrete platforms and runs -/

/-- A 64-bit Windows build with the declarations of the Winsock headers
(`SOCKET` is `UINT_PTR`), sockets converted with `_open_osfhandle`. -/
def win64 : Platform :=
  { sockBits := 64, sockSigned := false, USE_SOCKETS_AS_HANDLES := false,
    AF_INET := 2, SOCK_STREAM := 1, INADDR_LOOPBACK := 0x7f000001,
    htonl := fun x =>
      (x % 256) * 16777216 + (x / 256 % 256) * 65536
        + (x / 65536 % 256) * 256 + x / 16777216 % 256,
    sizeof_sockaddr_in := 16,
    WSAEINVAL := 10022, WSAENOTSOCK := 10038 }

/-- The same build with `USE_SOCKETS_AS_HANDLES` defined. -/
def win64h : Platform := { win64 with USE_SOCKETS_AS_HANDLES := true }

def world0 : World := { sockets := [], errno := 0, fds := [], trace := [] }

/-- The loopback address (in network byte order) with the given port. -/
def lo (port : Nat) : sockaddr_in := ⟨2, port, 0x0100007f⟩

/-- Every call succeeds and the two observations agree. -/
def oracleOk : Oracle :=
  { socketL := .ok 100, bindL := .ok (), nameL := .ok (lo 50000, 16),
    listenL := .ok (), socket0 := .ok 104, connect0 := .ok (),
    accept1 := .ok 108, peer0 := .ok (lo 50000, 16),
    name1 := .ok (lo 50000, 16), closeL := .ok (), close0 := .ok (),
    close1 := .ok (), osf0 := .ok 3, osf1 := .ok 4 }

/-- The call `bind` fails with `WSAEACCES`. -/
def oracleBindFails : Oracle := { oracleOk with bindL := .error 10013 }

/-- The call `connect` fails with `WSAECONNREFUSED`. -/
def oracleConnectFails : Oracle := { oracleOk with connect0 := .error 10061 }

/-- The call `accept` fails with `WSAEMFILE`. -/
def oracleAcceptFails : Oracle := { oracleOk with accept1 := .error 10024 }

/-- Every call succeeds; the peer port seen on the first endpoint is not the
local port of the second (the ports of the comment at lines 238-249). -/
def oracleMismatch : Oracle :=
  { oracleOk with peer0 := .ok (lo 53363, 16), name1 := .ok (lo 53365, 16) }

/-- Every call succeeds and the two observations agree in address and port,
but not in the length reported. -/
def oracleLenMismatch : Oracle :=
  { oracleOk with peer0 := .ok (lo 50000, 16), name1 := .ok (lo 50000, 8) }

/-- The verification fails and the first two cleanup closes fail too. -/
def oracleClosesFail : Oracle :=
  { oracleMismatch with closeL := .error 10050, close0 := .error 10050 }

/-- The call `bind` fails, and the code it reports is `WSAEINVAL` (10022). -/
def oracleBindInval : Oracle := { oracleOk with bindL := .error 10022 }

/-- Every Winsock call succeeds; the first `_open_osfhandle` fails with
`EMFILE`. -/
def oracleOsfFails : Oracle := { oracleOk with osf0 := .error 24 }

/-- A configuration with 64-bit `IV` and a short signal table. -/
def perl64 : PerlConfig :=
  { SIG_SIZE := 5,
    PL_sig_name := fun i =>
      match i with
      | 0 => "ZERO" | 1 => "HUP" | 2 => "INT" | 3 => "QUIT" | 4 => "HUP"
      | _ => "",
    ivBits := 64 }


/-! ### The function, one program point at a time

`s_pipe` is cut at each call: `s_pipe_bind` is the rest of the function from
line 216 on, `s_pipe_getsockname` from line 223 on, and so on.  The cut changes
nothing (`s_pipe_eq`); it lets a proof follow one call at a time. -/

/-- Lines 264-274: the two descriptors are stored. -/
def s_pipe_done (p : Platform) (o : Oracle) (sock0 sock1 : Nat) (w : World) :
    Int × (Int × Int) × World :=
  if p.USE_SOCKETS_AS_HANDLES then
    (0, (int_of_SOCKET sock0, int_of_SOCKET sock1), w)
  else
    let (fd0, w) := os_open_osfhandle o.osf0 sock0 0 w
    let (fd1, w) := os_open_osfhandle o.osf1 sock1 0 w
    (0, (fd0, fd1), w)

/-- Lines 256-274: the comparison of the two observations. -/
def s_pipe_verify (p : Platform) (o : Oracle) (filedes : Int × Int)
    (listener sock0 sock1 : Nat) (addr : sockaddr_in) (addr_size : Int)
    (adr2 : sockaddr_in) (adr2_size : Int) (w : World) :
    Int × (Int × Int) × World :=
  let w := { w with errno := p.WSAEINVAL }
  if addr_size ≠ adr2_size
      ∨ addr.sin_addr ≠ adr2.sin_addr
      ∨ addr.sin_port ≠ adr2.sin_port then
    s_pipe_fail p o filedes listener sock0 sock1 w else
  let w := (os_closesocket p o.closeL listener w).2
  s_pipe_done p o sock0 sock1 w

/-- Lines 253-274. -/
def s_pipe_name1 (p : Platform) (o : Oracle) (filedes : Int × Int)
    (listener sock0 sock1 : Nat) (addr : sockaddr_in) (addr_size : Int)
    (w : World) : Int × (Int × Int) × World :=
  let (r, adr2, adr2_size, w) := os_name p o.name1 sock1
    (Event.getsockname sock1 p.sizeof_sockaddr_in) ⟨0, 0, 0⟩
    p.sizeof_sockaddr_in w
  if r ≠ 0 then s_pipe_fail p o filedes listener sock0 sock1 w else
  s_pipe_verify p o filedes listener sock0 sock1 addr addr_size
    adr2 adr2_size w

/-- Lines 250-274. -/
def s_pipe_peer0 (p : Platform) (o : Oracle) (filedes : Int × Int)
    (listener sock0 sock1 : Nat) (addr : sockaddr_in) (addr_size : Int)
    (w : World) : Int × (Int × Int) × World :=
  let (r, addr, addr_size, w) := os_name p o.peer0 sock0
    (Event.getpeername sock0 addr_size) addr addr_size w
  if r ≠ 0 then s_pipe_fail p o filedes listener sock0 sock1 w else
  s_pipe_name1 p o filedes listener sock0 sock1 addr addr_size w

/-- Lines 235-274. -/
def s_pipe_accept (p : Platform) (o : Oracle) (filedes : Int × Int)
    (listener sock0 : Nat) (addr : sockaddr_in) (addr_size : Int)
    (w : World) : Int × (Int × Int) × World :=
  let (sock1, w) := os_accept p o.accept1 listener w
  if SOCKET_lt_zero p sock1 then
    s_pipe_fail p o filedes listener sock0 sock1 w else
  s_pipe_peer0 p o filedes listener sock0 sock1 addr addr_size w

/-- Lines 232-274. -/
def s_pipe_connect (p : Platform) (o : Oracle) (filedes : Int × Int)
    (listener sock0 : Nat) (addr : sockaddr_in) (addr_size : Int)
    (w : World) : Int × (Int × Int) × World :=
  let (r, w) := os_status p o.connect0 sock0
    (Event.connect sock0 addr addr_size) w
  if r ≠ 0 then
    s_pipe_fail p o filedes listener sock0 (INVALID_SOCKET p) w else
  s_pipe_accept p o filedes listener sock0 addr addr_size w

/-- Lines 229-274. -/
def s_pipe_socket0 (p : Platform) (o : Oracle) (filedes : Int × Int)
    (listener : Nat) (addr : sockaddr_in) (addr_size : Int)
    (w : World) : Int × (Int × Int) × World :=
  let (sock0, w) := os_socket p o.socket0 p.AF_INET p.SOCK_STREAM 0 w
  if sock0 = INVALID_SOCKET p then
    s_pipe_fail p o filedes listener sock0 (INVALID_SOCKET p) w else
  s_pipe_connect p o filedes listener sock0 addr addr_size w

/-- Lines 226-274. -/
def s_pipe_listen (p : Platform) (o : Oracle) (filedes : Int × Int)
    (listener : Nat) (addr : sockaddr_in) (addr_size : Int)
    (w : World) : Int × (Int × Int) × World :=
  let (r, w) := os_status p o.listenL listener (Event.listen listener 1) w
  if r ≠ 0 then
    s_pipe_fail p o filedes listener (INVALID_SOCKET p) (INVALID_SOCKET p) w
  else s_pipe_socket0 p o filedes listener addr addr_size w

/-- Lines 223-274. -/
def s_pipe_getsockname (p : Platform) (o : Oracle) (filedes : Int × Int)
    (listener : Nat) (w : World) : Int × (Int × Int) × World :=
  let (r, addr, addr_size, w) := os_name p o.nameL listener
    (Event.getsockname listener p.sizeof_sockaddr_in)
    ⟨p.AF_INET, 0, p.htonl p.INADDR_LOOPBACK⟩ p.sizeof_sockaddr_in w
  if r ≠ 0 then
    s_pipe_fail p o filedes listener (INVALID_SOCKET p) (INVALID_SOCKET p) w
  else s_pipe_listen p o filedes listener addr addr_size w

/-- Lines 216-274. -/
def s_pipe_bind (p : Platform) (o : Oracle) (filedes : Int × Int)
    (listener : Nat) (w : World) : Int × (Int × Int) × World :=
  let (r, w) := os_status p o.bindL listener
    (Event.bind listener ⟨p.AF_INET, 0, p.htonl p.INADDR_LOOPBACK⟩
      p.sizeof_sockaddr_in) w
  if r ≠ 0 then
    s_pipe_fail p o filedes listener (INVALID_SOCKET p) (INVALID_SOCKET p) w
  else s_pipe_getsockname p o filedes listener w

/-- Lines 213-274. -/
def s_pipe_socketL (p : Platform) (o : Oracle) (filedes : Int × Int)
    (w : World) : Int × (Int × Int) × World :=
  let (listener, w) := os_socket p o.socketL p.AF_INET p.SOCK_STREAM 0 w
  if listener = INVALID_SOCKET p then (-1, filedes, w) else
  s_pipe_bind p o filedes listener w

/-! ## Signal lookup: what the code does -/

theorem s_signum_scan_some (c : PerlConfig) (sig : SV) (n k i : Nat)
    (h : s_signum_scan c sig n k = some i) :
    k ≤ i ∧ i < k + n ∧ sig.pv = c.PL_sig_name i ∧
      ∀ j, k ≤ j → j < i → sig.pv ≠ c.PL_sig_name j := by
  induction n generalizing k with
  | zero => simp [s_signum_scan] at h
  | succ n ih =>
    unfold s_signum_scan at h
    split at h
    · rename_i heq
      injection h with h
      subst h
      exact ⟨le_rfl, by omega, heq, fun j h1 h2 => by omega⟩
    · rename_i hne
      obtain ⟨h1, h2, h3, h4⟩ := ih (k + 1) h
      refine ⟨by omega, by omega, h3, fun j hj1 hj2 => ?_⟩
      by_cases hjk : j = k
      · subst hjk
        exact hne
      · exact h4 j (by omega) hj2

theorem s_signum_scan_none (c : PerlConfig) (sig : SV) (n k : Nat)
    (h : s_signum_scan c sig n k = none) :
    ∀ j, k ≤ j → j < k + n → sig.pv ≠ c.PL_sig_name j := by
  induction n generalizing k with
  | zero => intro j h1 h2; omega
  | succ n ih =>
    unfold s_signum_scan at h
    split at h
    · simp at h
    · rename_i hne
      intro j h1 h2
      by_cases hjk : j = k
      · subst hjk
        exact hne
      · exact ih (k + 1) h j (by omega) (by omega)

/-- What `s_signum` computes: the smallest index in `1 .. SIG_SIZE-1` whose
name equals the string form, if there is one; otherwise the integer form
converted to `int`, when that lies strictly between 0 and `SIG_SIZE`;
otherwise -1. -/
theorem s_signum_spec (c : PerlConfig) (sig : SV) :
    (∃ i : Nat, 1 ≤ i ∧ i < c.SIG_SIZE ∧ sig.pv = c.PL_sig_name i ∧
        (∀ j, 1 ≤ j → j < i → sig.pv ≠ c.PL_sig_name j) ∧
        s_signum c sig = (i : Int)) ∨
    ((∀ j, 1 ≤ j → j < c.SIG_SIZE → sig.pv ≠ c.PL_sig_name j) ∧
      s_signum c sig =
        if 0 < int_of_IV sig.iv ∧ int_of_IV sig.iv < (c.SIG_SIZE : Int)
        then int_of_IV sig.iv else -1) := by
  unfold s_signum
  cases hscan : s_signum_scan c sig (c.SIG_SIZE - 1) 1 with
  | some i =>
    obtain ⟨h1, h2, h3, h4⟩ := s_signum_scan_some c sig _ _ _ hscan
    exact Or.inl ⟨i, h1, by omega, h3, h4, rfl⟩
  | none =>
    refine Or.inr ⟨fun j h1 h2 => ?_, ?_⟩
    · exact s_signum_scan_none c sig _ _ hscan j h1 (by omega)
    · simp

/-- The result of `s_signum` is -1 or lies in `1 .. SIG_SIZE-1`, and
`s_signum_croak` raises exactly when it is -1. -/
theorem s_signum_croak_spec (c : PerlConfig) (sig : SV) :
    (s_signum c sig = -1 ∨
      (1 ≤ s_signum c sig ∧ s_signum c sig < (c.SIG_SIZE : Int))) ∧
    (s_signum c sig = -1 →
      s_signum_croak c sig
        = Except.error (sig.pv ++ ": invalid signal name or number")) ∧
    (s_signum c sig ≠ -1 →
      s_signum_croak c sig = Except.ok (s_signum c sig)) := by
  have hr : s_signum c sig = -1 ∨
      (1 ≤ s_signum c sig ∧ s_signum c sig < (c.SIG_SIZE : Int)) := by
    rcases s_signum_spec c sig with ⟨i, h1, h2, -, -, h5⟩ | ⟨-, h⟩
    · right
      rw [h5]
      omega
    · rw [h]
      split
      · right
        omega
      · left
        rfl
  refine ⟨hr, fun h => ?_, fun h => ?_⟩
  · simp [s_signum_croak, h]
  · rcases hr with h' | ⟨h1, h2⟩
    · exact absurd h' h
    · have : ¬ s_signum c sig < 0 := by omega
      simp [s_signum_croak, this]

/-! ## The emulated pipe: lemmas -/

theorem s_pipe_fail_ret (p : Platform) (o : Oracle) (fd : Int × Int)
    (l a b : Nat) (w : World) : (s_pipe_fail p o fd l a b w).1 = -1 := by
  simp [s_pipe_fail]

theorem s_pipe_fail_filedes (p : Platform) (o : Oracle) (fd : Int × Int)
    (l a b : Nat) (w : World) : (s_pipe_fail p o fd l a b w).2.1 = fd := by
  simp [s_pipe_fail]

theorem os_closesocket_trace (p : Platform) (r : Except Int Unit) (s : Nat)
    (w : World) :
    (os_closesocket p r s w).2.trace
      = w.trace ++ [Event.closesocket s (os_closesocket p r s w).1] := by
  unfold os_closesocket
  split
  · rcases r with e | u <;> rfl
  · rfl

theorem closedHandles_append (t u : List Event) :
    closedHandles (t ++ u) = closedHandles t ++ closedHandles u := by
  induction t with
  | nil => rfl
  | cons e t ih => cases e <;> simp [closedHandles, ih]

theorem openedHandles_append (p : Platform) (t u : List Event) :
    openedHandles p (t ++ u) = openedHandles p t ++ openedHandles p u := by
  induction t with
  | nil => rfl
  | cons e t ih =>
    cases e <;> simp [openedHandles, ih]
    all_goals split <;> simp

theorem Fresh_listener {p : Platform} {o : Oracle} {l : Nat}
    (hf : o.Fresh p) (hl : o.socketL = .ok l) : l ≠ INVALID_SOCKET p := by
  rintro rfl
  apply hf.2
  simp [Oracle.handles, okHandle, hl]

theorem Fresh_first {p : Platform} {o : Oracle} {l a : Nat}
    (hf : o.Fresh p) (hl : o.socketL = .ok l) (ha : o.socket0 = .ok a) :
    a ≠ INVALID_SOCKET p ∧ a ≠ l := by
  obtain ⟨hn, hi⟩ := hf
  simp only [Oracle.handles, okHandle, hl, ha] at hn hi
  constructor
  · rintro rfl
    exact hi (by simp)
  · rintro rfl
    simp at hn

theorem Fresh_second {p : Platform} {o : Oracle} {l a b : Nat}
    (hf : o.Fresh p) (hl : o.socketL = .ok l) (ha : o.socket0 = .ok a)
    (hb : o.accept1 = .ok b) :
    b ≠ INVALID_SOCKET p ∧ b ≠ l ∧ b ≠ a := by
  obtain ⟨hn, hi⟩ := hf
  simp only [Oracle.handles, okHandle, hl, ha, hb] at hn hi
  refine ⟨?_, ?_, ?_⟩
  · rintro rfl
    exact hi (by simp)
  · rintro rfl
    simp at hn
  · rintro rfl
    simp at hn

/-- The cut of `s_pipe` into program points is the function itself. -/
theorem s_pipe_eq (p : Platform) (o : Oracle) (fd : Int × Int) (w : World) :
    s_pipe p o fd w = s_pipe_socketL p o fd w := rfl

/-- The two ways a call ends.  It returns 0 only after every call of the
connection sequence succeeded and the two observations were found equal;
otherwise it returns -1 and has not written `filedes`. -/
theorem s_pipe_ret_cases (p : Platform) (o : Oracle) (fd : Int × Int)
    (w : World) :
    ((s_pipe p o fd w).1 = 0 ∧
      ∃ a n a2 n2, o.setupSucceeds p a n a2 n2 ∧
        n = n2 ∧ a.sin_addr = a2.sin_addr ∧ a.sin_port = a2.sin_port) ∨
    ((s_pipe p o fd w).1 = -1 ∧ (s_pipe p o fd w).2.1 = fd) := by
  rcases o with ⟨sL, bL, nL, lL, s0, c0, a1, p0, n1, cL, c0', c1, f0, f1⟩
  simp only [s_pipe_calls, s_pipe_eq]
  rcases sL with e | L
  · simp [*, s_pipe_socketL, os_socket, World.isSocket, s_pipe_fail_ret, s_pipe_fail_filedes]
  by_cases hL : L = INVALID_SOCKET p
  · simp [*, s_pipe_socketL, os_socket, World.isSocket, s_pipe_fail_ret, s_pipe_fail_filedes]
  simp [*, s_pipe_socketL, os_socket, World.isSocket]
  rcases bL with e | _
  · simp [*, s_pipe_bind, os_status, World.isSocket, World.log, s_pipe_fail_ret, s_pipe_fail_filedes]
  simp [*, s_pipe_bind, os_status, World.isSocket, World.log]
  rcases nL with e | ⟨a, n⟩
  · simp [*, s_pipe_getsockname, os_name, World.isSocket, World.log, s_pipe_fail_ret, s_pipe_fail_filedes]
  simp [*, s_pipe_getsockname, os_name, World.isSocket, World.log]
  rcases lL with e | _
  · simp [*, s_pipe_listen, os_status, World.isSocket, World.log, s_pipe_fail_ret, s_pipe_fail_filedes]
  simp [*, s_pipe_listen, os_status, World.isSocket, World.log]
  rcases s0 with e | S0
  · simp [*, s_pipe_socket0, os_socket, World.isSocket, s_pipe_fail_ret, s_pipe_fail_filedes]
  by_cases h0 : S0 = INVALID_SOCKET p
  · simp [*, s_pipe_socket0, os_socket, World.isSocket, s_pipe_fail_ret, s_pipe_fail_filedes]
  simp [*, s_pipe_socket0, os_socket, World.isSocket]
  rcases c0 with e | _
  · simp [*, s_pipe_connect, os_status, World.isSocket, World.log, s_pipe_fail_ret, s_pipe_fail_filedes]
  simp [*, s_pipe_connect, os_status, World.isSocket, World.log]
  rcases a1 with e | S1
  · by_cases hs : SOCKET_lt_zero p (INVALID_SOCKET p) = true
    · simp [*, s_pipe_accept, os_accept, World.isSocket, s_pipe_fail_ret, s_pipe_fail_filedes]
    simp [*, s_pipe_accept, os_accept, World.isSocket]
    rcases p0 with e | ⟨a', n'⟩
    · simp [*, s_pipe_peer0, os_name, World.isSocket, World.log, s_pipe_fail_ret, s_pipe_fail_filedes]
    simp [*, s_pipe_peer0, os_name, World.isSocket, World.log]
    simp [*, s_pipe_name1, os_name, World.isSocket, World.log, s_pipe_fail_ret, s_pipe_fail_filedes]
  by_cases h1 : S1 = INVALID_SOCKET p
  · subst h1
    by_cases hs : SOCKET_lt_zero p (INVALID_SOCKET p) = true
    · simp [*, s_pipe_accept, os_accept, World.isSocket, s_pipe_fail_ret, s_pipe_fail_filedes]
    simp [*, s_pipe_accept, os_accept, World.isSocket]
    rcases p0 with e | ⟨a', n'⟩
    · simp [*, s_pipe_peer0, os_name, World.isSocket, World.log, s_pipe_fail_ret, s_pipe_fail_filedes]
    simp [*, s_pipe_peer0, os_name, World.isSocket, World.log]
    simp [*, s_pipe_name1, os_name, World.isSocket, World.log, s_pipe_fail_ret, s_pipe_fail_filedes]
  by_cases hs : SOCKET_lt_zero p S1 = true
  · simp [*, s_pipe_accept, os_accept, World.isSocket, s_pipe_fail_ret, s_pipe_fail_filedes]
  simp [*, s_pipe_accept, os_accept, World.isSocket]
  rcases p0 with e | ⟨a', n'⟩
  · simp [*, s_pipe_peer0, os_name, World.isSocket, World.log, s_pipe_fail_ret, s_pipe_fail_filedes]
  simp [*, s_pipe_peer0, os_name, World.isSocket, World.log]
  rcases n1 with e | ⟨a2, n2⟩
  · simp [*, s_pipe_name1, os_name, World.isSocket, World.log, s_pipe_fail_ret, s_pipe_fail_filedes]
  simp [*, s_pipe_name1, os_name, World.isSocket, World.log]
  by_cases hm : n' ≠ n2 ∨ a'.sin_addr ≠ a2.sin_addr ∨ a'.sin_port ≠ a2.sin_port
  · simp [*, s_pipe_verify, World.isSocket, s_pipe_fail_ret, s_pipe_fail_filedes]
  cases hh : p.USE_SOCKETS_AS_HANDLES
  · rcases f0 with e0 | fd0 <;> rcases f1 with e1 | fd1 <;>
      (simp [*, Oracle.setupSucceeds, s_pipe_verify, s_pipe_done, World.isSocket, os_closesocket, os_open_osfhandle]; push_neg at hm; exact ⟨a', n', a2, n2, ⟨⟨rfl, rfl⟩, rfl, rfl⟩, hm⟩)
  · (simp [*, Oracle.setupSucceeds, s_pipe_verify, s_pipe_done, World.isSocket, os_closesocket]; push_neg at hm; exact ⟨a', n', a2, n2, ⟨⟨rfl, rfl⟩, rfl, rfl⟩, hm⟩)

theorem s_pipe_ret_zero (p : Platform) (o : Oracle) (fd : Int × Int) (w : World)
    (h : (s_pipe p o fd w).1 = 0) :
    ∃ a n a2 n2, o.setupSucceeds p a n a2 n2 ∧
      n = n2 ∧ a.sin_addr = a2.sin_addr ∧ a.sin_port = a2.sin_port := by
  rcases s_pipe_ret_cases p o fd w with ⟨-, h0⟩ | ⟨h1, -⟩
  · exact h0
  · rw [h] at h1
    exact absurd h1 (by decide)

/-- The return value is 0 or -1. -/
theorem s_pipe_ret_zero_or_fail (p : Platform) (o : Oracle) (fd : Int × Int)
    (w : World) : (s_pipe p o fd w).1 = 0 ∨ (s_pipe p o fd w).1 = -1 := by
  rcases s_pipe_ret_cases p o fd w with ⟨h0, -⟩ | ⟨h1, -⟩
  · exact Or.inl h0
  · exact Or.inr h1

/-- When every call of the connection sequence succeeds, the return value is
decided by the comparison of lines 257-259. -/
theorem s_pipe_ret_of_setup (p : Platform) (o : Oracle) (fd : Int × Int)
    (w : World) (a : sockaddr_in) (n : Int) (a2 : sockaddr_in) (n2 : Int)
    (h : o.setupSucceeds p a n a2 n2) :
    (s_pipe p o fd w).1
      = if n ≠ n2 ∨ a.sin_addr ≠ a2.sin_addr ∨ a.sin_port ≠ a2.sin_port
        then -1 else 0 := by
  obtain ⟨l, aL, s0, s1, e1, hl, e2, e3, e4, e5, h0, e6, e7, h1, hs, e8, e9⟩ := h
  rcases o with ⟨sL, bL, nL, lL, s0', c0, a1, p0, n1, cL, c0', c1, f0, f1⟩
  dsimp only at e1 e2 e3 e4 e5 e6 e7 e8 e9
  subst e1 e2 e3 e4 e5 e6 e7 e8 e9
  by_cases hm : n ≠ n2 ∨ a.sin_addr ≠ a2.sin_addr ∨ a.sin_port ≠ a2.sin_port
  · simp [*, s_pipe_eq, s_pipe_socketL, s_pipe_bind, s_pipe_getsockname, s_pipe_listen, s_pipe_socket0, s_pipe_connect, s_pipe_accept, s_pipe_peer0, s_pipe_name1, s_pipe_verify, os_socket, os_status, os_name, os_accept, World.isSocket, World.log, s_pipe_fail_ret]
  · cases hh : p.USE_SOCKETS_AS_HANDLES
    · rcases f0 with e0 | fd0 <;> rcases f1 with e1 | fd1 <;>
        simp [*, s_pipe_eq, s_pipe_socketL, s_pipe_bind, s_pipe_getsockname, s_pipe_listen, s_pipe_socket0, s_pipe_connect, s_pipe_accept, s_pipe_peer0, s_pipe_name1, s_pipe_verify, os_socket, os_status, os_name, os_accept, World.isSocket, World.log, s_pipe_done, os_closesocket, os_open_osfhandle]
    · simp [*, s_pipe_eq, s_pipe_socketL, s_pipe_bind, s_pipe_getsockname, s_pipe_listen, s_pipe_socket0, s_pipe_connect, s_pipe_accept, s_pipe_peer0, s_pipe_name1, s_pipe_verify, os_socket, os_status, os_name, os_accept, World.isSocket, World.log, s_pipe_done, os_closesocket]

/-- A failed verification: the call returns -1, leaves `WSAEINVAL` in `errno`
and closes the three sockets it opened. -/
theorem s_pipe_mismatch_result (p : Platform) (o : Oracle) (fd : Int × Int)
    (w : World) (a : sockaddr_in) (n : Int) (a2 : sockaddr_in) (n2 : Int)
    (h : o.setupSucceeds p a n a2 n2) (hf : o.Fresh p) (hc : o.closesSucceed)
    (hm : n ≠ n2 ∨ a.sin_addr ≠ a2.sin_addr ∨ a.sin_port ≠ a2.sin_port) :
    (s_pipe p o fd w).1 = -1 ∧ (s_pipe p o fd w).2.2.errno = p.WSAEINVAL ∧
      (s_pipe p o fd w).2.2.sockets = w.sockets := by
  obtain ⟨l, aL, s0, s1, e1, hl, e2, e3, e4, e5, h0, e6, e7, h1, hs, e8, e9⟩ := h
  obtain ⟨-, h0l⟩ := Fresh_first hf e1 e5
  obtain ⟨-, h1l, h10⟩ := Fresh_second hf e1 e5 e7
  rcases o with ⟨sL, bL, nL, lL, s0', c0, a1, p0, n1, cL, c0', c1, f0, f1⟩
  obtain ⟨rfl, rfl, rfl⟩ := hc
  dsimp only at e1 e2 e3 e4 e5 e6 e7 e8 e9
  subst e1 e2 e3 e4 e5 e6 e7 e8 e9
  simp [*, s_pipe_eq, s_pipe_socketL, s_pipe_bind, s_pipe_getsockname, s_pipe_listen, s_pipe_socket0, s_pipe_connect, s_pipe_accept, s_pipe_peer0, s_pipe_name1, s_pipe_verify, os_socket, os_status, os_name, os_accept, World.isSocket, World.log, s_pipe_fail, os_closesocket]

/-- When the environment never reports `WSAEINVAL` itself, a failing call
that leaves `WSAEINVAL` in `errno` is one whose verification failed: every
call of the connection sequence succeeded. -/
theorem s_pipe_WSAEINVAL_is_verification (p : Platform) (o : Oracle)
    (fd : Int × Int) (w : World) (hf : o.Fresh p) (hn : o.nonNegative p)
    (hc : o.closesSucceed) (hcodes : p.WSAEINVAL ∉ o.codes p)
    (hret : (s_pipe p o fd w).1 = -1)
    (herr : (s_pipe p o fd w).2.2.errno = p.WSAEINVAL) :
    ∃ a n a2 n2, o.setupSucceeds p a n a2 n2 ∧
      (n ≠ n2 ∨ a.sin_addr ≠ a2.sin_addr ∨ a.sin_port ≠ a2.sin_port) := by
  revert hcodes hret herr
  rcases o with ⟨sL, bL, nL, lL, s0, c0, a1, p0, n1, cL, c0', c1, f0, f1⟩
  obtain ⟨rfl, rfl, rfl⟩ := hc
  simp only [s_pipe_calls, s_pipe_eq]
  rcases sL with e | L
  · (simp [*, s_pipe_socketL, os_socket, World.isSocket, Oracle.codes, errCode, s_pipe_fail, os_closesocket]; intros; omega)
  have hL : L ≠ INVALID_SOCKET p := Fresh_listener hf rfl
  simp [*, s_pipe_socketL, os_socket, World.isSocket]
  rcases bL with e | _
  · (simp [*, s_pipe_bind, os_status, World.isSocket, World.log, Oracle.codes, errCode, s_pipe_fail, os_closesocket]; intros; omega)
  simp [*, s_pipe_bind, os_status, World.isSocket, World.log]
  rcases nL with e | ⟨a, n⟩
  · (simp [*, s_pipe_getsockname, os_name, World.isSocket, World.log, Oracle.codes, errCode, s_pipe_fail, os_closesocket]; intros; omega)
  simp [*, s_pipe_getsockname, os_name, World.isSocket, World.log]
  rcases lL with e | _
  · (simp [*, s_pipe_listen, os_status, World.isSocket, World.log, Oracle.codes, errCode, s_pipe_fail, os_closesocket]; intros; omega)
  simp [*, s_pipe_listen, os_status, World.isSocket, World.log]
  rcases s0 with e | S0
  · (simp [*, s_pipe_socket0, os_socket, World.isSocket, Oracle.codes, errCode, s_pipe_fail, os_closesocket]; intros; omega)
  obtain ⟨h0, h0L⟩ := Fresh_first hf rfl rfl
  simp [*, s_pipe_socket0, os_socket, World.isSocket]
  rcases c0 with e | _
  · (simp [*, s_pipe_connect, os_status, World.isSocket, World.log, Oracle.codes, errCode, s_pipe_fail, os_closesocket]; intros; omega)
  simp [*, s_pipe_connect, os_status, World.isSocket, World.log]
  rcases a1 with e | S1
  · by_cases hs : SOCKET_lt_zero p (INVALID_SOCKET p) = true
    · (simp [*, s_pipe_accept, os_accept, World.isSocket, Oracle.codes, errCode, s_pipe_fail, os_closesocket]; intros; omega)
    simp [*, s_pipe_accept, os_accept, World.isSocket]
    rcases p0 with e | ⟨a', n'⟩
    · (simp [*, s_pipe_peer0, os_name, World.isSocket, World.log, Oracle.codes, errCode, s_pipe_fail, os_closesocket]; intros; omega)
    simp [*, s_pipe_peer0, os_name, World.isSocket, World.log]
    (simp [*, s_pipe_name1, os_name, World.isSocket, World.log, Oracle.codes, errCode, s_pipe_fail, os_closesocket]; intros; omega)
  obtain ⟨h1, h1L, h10⟩ := Fresh_second hf rfl rfl rfl
  by_cases hs : SOCKET_lt_zero p S1 = true
  · exact absurd hs (by simp [hn S1 (by simp [Oracle.handles, okHandle])])
  simp [*, s_pipe_accept, os_accept, World.isSocket]
  rcases p0 with e | ⟨a', n'⟩
  · (simp [*, s_pipe_peer0, os_name, World.isSocket, World.log, Oracle.codes, errCode, s_pipe_fail, os_closesocket]; intros; omega)
  simp [*, s_pipe_peer0, os_name, World.isSocket, World.log]
  rcases n1 with e | ⟨a2, n2⟩
  · (simp [*, s_pipe_name1, os_name, World.isSocket, World.log, Oracle.codes, errCode, s_pipe_fail, os_closesocket]; intros; omega)
  simp [*, s_pipe_name1, os_name, World.isSocket, World.log]
  by_cases hm : n' ≠ n2 ∨ a'.sin_addr ≠ a2.sin_addr ∨ a'.sin_port ≠ a2.sin_port
  · exact fun _ _ _ => ⟨a', n', a2, n2, ⟨L, (a, n), S0, S1, rfl, hL, rfl, rfl, rfl, rfl, h0, rfl, rfl, h1, by simpa using hs, rfl, rfl⟩, hm⟩
  cases hh : p.USE_SOCKETS_AS_HANDLES
  · rcases f0 with e0 | fd0 <;> rcases f1 with e1 | fd1 <;>
      simp [*, s_pipe_verify, s_pipe_done, World.isSocket, os_open_osfhandle, os_closesocket]
  · simp [*, s_pipe_verify, s_pipe_done, World.isSocket, os_closesocket]

/-- A failure of a call issued before `accept` is reported as such: the call
returns -1, `errno` holds the code of that call and the sockets opened so
far are closed (the cleanup closes succeeding). -/
theorem s_pipe_errno_of_early_failure (p : Platform) (o : Oracle)
    (fd : Int × Int) (w : World) (e : Int) (hf : o.Fresh p)
    (hc : o.closesSucceed) (h : o.firstFailure = some e) :
    (s_pipe p o fd w).1 = -1 ∧ (s_pipe p o fd w).2.2.errno = e ∧
      (s_pipe p o fd w).2.2.sockets = w.sockets := by
  rcases o with ⟨sL, bL, nL, lL, s0, c0, a1, p0, n1, cL, c0', c1, f0, f1⟩
  obtain ⟨rfl, rfl, rfl⟩ := hc
  simp only [s_pipe_eq]
  rcases sL with e1 | L
  · simp [Oracle.firstFailure] at h
    simp [*, s_pipe_socketL, os_socket]
  have hL : L ≠ INVALID_SOCKET p := Fresh_listener hf rfl
  simp [*, s_pipe_socketL, os_socket]
  rcases bL with e1 | _
  · simp [Oracle.firstFailure] at h
    simp [*, s_pipe_bind, os_status, World.isSocket, s_pipe_fail, os_closesocket]
  simp [*, s_pipe_bind, os_status, World.isSocket, World.log]
  rcases nL with e1 | ⟨a, n⟩
  · simp [Oracle.firstFailure] at h
    simp [*, s_pipe_getsockname, os_name, World.isSocket, s_pipe_fail,
      os_closesocket]
  simp [*, s_pipe_getsockname, os_name, World.isSocket, World.log]
  rcases lL with e1 | _
  · simp [Oracle.firstFailure] at h
    simp [*, s_pipe_listen, os_status, World.isSocket, s_pipe_fail,
      os_closesocket]
  simp [*, s_pipe_listen, os_status, World.isSocket, World.log]
  rcases s0 with e1 | S0
  · simp [Oracle.firstFailure] at h
    simp [*, s_pipe_socket0, os_socket, World.isSocket, s_pipe_fail,
      os_closesocket]
  obtain ⟨h0, h0L⟩ := Fresh_first hf rfl rfl
  simp [*, s_pipe_socket0, os_socket]
  rcases c0 with e1 | _
  · simp [Oracle.firstFailure] at h
    simp [*, s_pipe_connect, os_status, World.isSocket, s_pipe_fail,
      os_closesocket]
  · simp [Oracle.firstFailure] at h

/-- Were `SOCKET` a signed type, the test of line 235 would see a failing
`accept`: the call returns -1 with the code of `accept` in `errno`. -/
theorem s_pipe_errno_of_accept_failure (p : Platform) (o : Oracle)
    (fd : Int × Int) (w : World) (e : Int) (hf : o.Fresh p)
    (hc : o.closesSucceed) (h : o.firstFailure = none)
    (ha : o.accept1 = .error e)
    (hs : SOCKET_lt_zero p (INVALID_SOCKET p) = true) :
    (s_pipe p o fd w).1 = -1 ∧ (s_pipe p o fd w).2.2.errno = e ∧
      (s_pipe p o fd w).2.2.sockets = w.sockets := by
  rcases o with ⟨sL, bL, nL, lL, s0, c0, a1, p0, n1, cL, c0', c1, f0, f1⟩
  obtain ⟨rfl, rfl, rfl⟩ := hc
  dsimp only at ha
  subst ha
  rcases sL with e1 | L
  · simp [Oracle.firstFailure] at h
  rcases bL with e1 | _
  · simp [Oracle.firstFailure] at h
  rcases nL with e1 | ⟨a, n⟩
  · simp [Oracle.firstFailure] at h
  rcases lL with e1 | _
  · simp [Oracle.firstFailure] at h
  rcases s0 with e1 | S0
  · simp [Oracle.firstFailure] at h
  rcases c0 with e1 | _
  · simp [Oracle.firstFailure] at h
  have hL : L ≠ INVALID_SOCKET p := Fresh_listener hf rfl
  obtain ⟨h0, h0L⟩ := Fresh_first hf rfl rfl
  simp [*, s_pipe_eq, s_pipe_socketL, s_pipe_bind, s_pipe_getsockname,
    s_pipe_listen, s_pipe_socket0, s_pipe_connect, s_pipe_accept, os_socket,
    os_status, os_name, os_accept, World.isSocket, World.log, s_pipe_fail,
    os_closesocket]

/-! ## The emulated pipe: the claims -/

/-- C2, as stated, fails: every call succeeds and the two observations agree
in address and in port, yet the call returns -1, because the two reported
address lengths differ (the first comparison of line 257). -/
theorem s_pipe_length_mismatch :
    oracleLenMismatch.setupSucceeds win64 (lo 50000) 16 (lo 50000) 8 ∧
    ¬ ((s_pipe win64 oracleLenMismatch (0, 0) world0).1 = 0 ↔
        (lo 50000).sin_addr = (lo 50000).sin_addr ∧
        (lo 50000).sin_port = (lo 50000).sin_port) := by
  refine ⟨⟨100, (lo 50000, 16), 104, 108, rfl, by decide, rfl, rfl, rfl, rfl,
    by decide, rfl, rfl, by decide, rfl, rfl, rfl⟩, ?_⟩
  decide

/-- C2, amended. If the call returns 0 then every call of the connection
sequence succeeded and the peer address and port observed on the first
endpoint equal the local address and port observed on the second; and when
every call succeeds, it returns 0 exactly when the two observations agree in
reported length, in address and in port. -/
theorem s_pipe_verification (p : Platform) (o : Oracle) (fd : Int × Int)
    (w : World) :
    ((s_pipe p o fd w).1 = 0 →
      ∃ a n a2 n2, o.setupSucceeds p a n a2 n2 ∧
        a.sin_addr = a2.sin_addr ∧ a.sin_port = a2.sin_port) ∧
    (∀ a n a2 n2, o.setupSucceeds p a n a2 n2 →
      ((s_pipe p o fd w).1 = 0 ↔
        n = n2 ∧ a.sin_addr = a2.sin_addr ∧ a.sin_port = a2.sin_port)) := by
  constructor
  · intro h
    obtain ⟨a, n, a2, n2, hs, -, h2, h3⟩ := s_pipe_ret_zero p o fd w h
    exact ⟨a, n, a2, n2, hs, h2, h3⟩
  · intro a n a2 n2 hs
    rw [s_pipe_ret_of_setup p o fd w a n a2 n2 hs]
    by_cases hm : n ≠ n2 ∨ a.sin_addr ≠ a2.sin_addr ∨ a.sin_port ≠ a2.sin_port
    · rw [if_pos hm]
      constructor
      · intro h
        exact absurd h (by decide)
      · rintro ⟨h1, h2, h3⟩
        rcases hm with hm | hm | hm
        · exact absurd h1 hm
        · exact absurd h2 hm
        · exact absurd h3 hm
    · rw [if_neg hm]
      push_neg at hm
      exact ⟨fun _ => hm, fun _ => rfl⟩

/-- C2, amended, at a run in which every call succeeds and the observations
agree: the call returns 0. -/
theorem s_pipe_verification_witness :
    oracleOk.setupSucceeds win64h (lo 50000) 16 (lo 50000) 16 ∧
    ((s_pipe win64h oracleOk (0, 0) world0).1 = 0 ↔
      (16 : Int) = 16 ∧ (lo 50000).sin_addr = (lo 50000).sin_addr ∧
        (lo 50000).sin_port = (lo 50000).sin_port) :=
  have hs : oracleOk.setupSucceeds win64h (lo 50000) 16 (lo 50000) 16 :=
    ⟨100, (lo 50000, 16), 104, 108, rfl, by decide, rfl, rfl, rfl, rfl,
      by decide, rfl, rfl, by decide, rfl, rfl, rfl⟩
  ⟨hs, (s_pipe_verification win64h oracleOk (0, 0) world0).2
    (lo 50000) 16 (lo 50000) 16 hs⟩

/-- C3, as stated, fails: `WSAEINVAL` is not a code that only the
verification leaves.  A failing `bind` that itself reports `WSAEINVAL`
returns -1 with `WSAEINVAL` in `errno` and nothing left open, exactly what
the caller sees after a failed verification (lines 220-233 leave the code of
the failing call in `errno` untouched). -/
theorem s_pipe_bind_WSAEINVAL :
    oracleBindInval.bindL = .error win64.WSAEINVAL ∧
    (s_pipe win64 oracleBindInval (0, 0) world0).1 = -1 ∧
    (s_pipe win64 oracleBindInval (0, 0) world0).2.2.errno = win64.WSAEINVAL ∧
    (s_pipe win64 oracleBindInval (0, 0) world0).1
      = (s_pipe win64 oracleMismatch (0, 0) world0).1 ∧
    (s_pipe win64 oracleBindInval (0, 0) world0).2.2.errno
      = (s_pipe win64 oracleMismatch (0, 0) world0).2.2.errno ∧
    (s_pipe win64 oracleBindInval (0, 0) world0).2.2.sockets
      = (s_pipe win64 oracleMismatch (0, 0) world0).2.2.sockets :=
  ⟨rfl, by decide, by decide, by decide, by decide, by decide⟩

/-- C3, amended. When every call succeeds but the peer address or port seen
on the first endpoint differs from the local address or port of the second,
the call returns -1, the caller finds `WSAEINVAL` in `errno`, and the
sockets open afterwards are those open before.  That code tells the
verification apart from a failing call only as far as the environment does
not report `WSAEINVAL` itself: in any run in which no call reports
`WSAEINVAL`, the cleanup closes succeed and a call of the connection
sequence fails, the call returns -1 and `errno` is left with a code other
than `WSAEINVAL`. -/
theorem s_pipe_mismatch_WSAEINVAL (p : Platform) (o : Oracle)
    (fd : Int × Int) (w : World)
    (a : sockaddr_in) (n : Int) (a2 : sockaddr_in) (n2 : Int)
    (h : o.setupSucceeds p a n a2 n2) (hf : o.Fresh p) (hc : o.closesSucceed)
    (hm : a.sin_addr ≠ a2.sin_addr ∨ a.sin_port ≠ a2.sin_port) :
    ((s_pipe p o fd w).1 = -1 ∧ (s_pipe p o fd w).2.2.errno = p.WSAEINVAL ∧
      (s_pipe p o fd w).2.2.sockets = w.sockets) ∧
    (∀ (o2 : Oracle) (w2 : World), o2.Fresh p → o2.nonNegative p →
      o2.closesSucceed → p.WSAEINVAL ∉ o2.codes p →
      (∀ b m b2 m2, ¬ o2.setupSucceeds p b m b2 m2) →
      (s_pipe p o2 fd w2).1 = -1 ∧
        (s_pipe p o2 fd w2).2.2.errno ≠ p.WSAEINVAL) := by
  refine ⟨s_pipe_mismatch_result p o fd w a n a2 n2 h hf hc (Or.inr hm), ?_⟩
  intro o2 w2 hf2 hn2 hc2 hcodes hfail
  have hret : (s_pipe p o2 fd w2).1 = -1 := by
    rcases s_pipe_ret_zero_or_fail p o2 fd w2 with h0 | h1
    · obtain ⟨b, m, b2, m2, hs, -⟩ := s_pipe_ret_zero p o2 fd w2 h0
      exact absurd hs (hfail b m b2 m2)
    · exact h1
  refine ⟨hret, fun herr => ?_⟩
  obtain ⟨b, m, b2, m2, hs, -⟩ :=
    s_pipe_WSAEINVAL_is_verification p o2 fd w2 hf2 hn2 hc2 hcodes hret herr
  exact hfail b m b2 m2 hs

/-- C3, amended, at the ports of the comment of lines 238-249, and, for the
second part, at a run in which `bind` fails with `WSAEACCES`. -/
theorem s_pipe_mismatch_WSAEINVAL_witness :
    oracleMismatch.setupSucceeds win64 (lo 53363) 16 (lo 53365) 16 ∧
    ((lo 53363).sin_addr ≠ (lo 53365).sin_addr ∨
      (lo 53363).sin_port ≠ (lo 53365).sin_port) ∧
    ((s_pipe win64 oracleMismatch (0, 0) world0).1 = -1 ∧
      (s_pipe win64 oracleMismatch (0, 0) world0).2.2.errno = win64.WSAEINVAL ∧
      (s_pipe win64 oracleMismatch (0, 0) world0).2.2.sockets
        = world0.sockets) ∧
    ((s_pipe win64 oracleBindFails (0, 0) world0).1 = -1 ∧
      (s_pipe win64 oracleBindFails (0, 0) world0).2.2.errno
        ≠ win64.WSAEINVAL) :=
  have hs : oracleMismatch.setupSucceeds win64 (lo 53363) 16 (lo 53365) 16 :=
    ⟨100, (lo 50000, 16), 104, 108, rfl, by decide, rfl, rfl, rfl, rfl,
      by decide, rfl, rfl, by decide, rfl, rfl, rfl⟩
  have hb : ∀ b m b2 m2, ¬ oracleBindFails.setupSucceeds win64 b m b2 m2 :=
    fun _ _ _ _ ⟨_, _, _, _, _, _, h, _⟩ => by
      simp [oracleBindFails] at h
  have hf : oracleMismatch.Fresh win64 := by
    unfold Oracle.Fresh
    decide
  have hf2 : oracleBindFails.Fresh win64 := by
    unfold Oracle.Fresh
    decide
  have hn2 : oracleBindFails.nonNegative win64 := by
    unfold Oracle.nonNegative
    decide
  have ht := s_pipe_mismatch_WSAEINVAL win64 oracleMismatch (0, 0) world0
    (lo 53363) 16 (lo 53365) 16 hs hf ⟨rfl, rfl, rfl⟩
    (Or.inr (by decide))
  ⟨hs, Or.inr (by decide), ht.1,
    ht.2 oracleBindFails world0 hf2 hn2 ⟨rfl, rfl, rfl⟩ (by decide) hb⟩

/-- C4, at a failing `accept`. `SOCKET` is unsigned, so the test `< 0` of
line 235 does not see the `INVALID_SOCKET` that `accept` returns: the code
goes on to the two address queries, `getsockname` on the invalid handle
fails, and the caller finds the code of that call (`WSAENOTSOCK`, 10038) in
`errno`, not the code `accept` had set (10024). -/
theorem s_pipe_accept_failure_errno :
    oracleAcceptFails.accept1 = .error 10024 ∧
    SOCKET_lt_zero win64 (INVALID_SOCKET win64) = false ∧
    (s_pipe win64 oracleAcceptFails (0, 0) world0).1 = -1 ∧
    (s_pipe win64 oracleAcceptFails (0, 0) world0).2.2.errno = 10038 :=
  ⟨rfl, by decide, by decide, by decide⟩

/-- C5, at a failing `_open_osfhandle`. Every Winsock call succeeds and the
verification passes; the first `_open_osfhandle` returns -1.  The result is
not checked: the call returns 0 with `filedes [0] = -1`, which denotes no
socket, while both sockets stay open. -/
theorem s_pipe_osfhandle_failure :
    (s_pipe win64 oracleOsfFails (0, 0) world0).1 = 0 ∧
    (s_pipe win64 oracleOsfFails (0, 0) world0).2.1 = (-1, 4) ∧
    (s_pipe win64 oracleOsfFails (0, 0) world0).2.2.sockets = [108, 104] ∧
    endpointSocket win64 (s_pipe win64 oracleOsfFails (0, 0) world0).2.2 (-1)
      = none := by
  decide

/-- C6. Whenever the call returns -1, at whichever step, the caller's
`filedes` array is as it was before the call. -/
theorem s_pipe_failure_keeps_filedes (p : Platform) (o : Oracle)
    (fd : Int × Int) (w : World) (h : (s_pipe p o fd w).1 = -1) :
    (s_pipe p o fd w).2.1 = fd := by
  rcases s_pipe_ret_cases p o fd w with ⟨h0, -⟩ | ⟨-, h1⟩
  · rw [h] at h0
    exact absurd h0 (by decide)
  · exact h1

/-- C6 at a run whose verification fails: `filedes` still holds 7 and 8. -/
theorem s_pipe_failure_keeps_filedes_witness :
    (s_pipe win64 oracleMismatch (7, 8) world0).1 = -1 ∧
    (s_pipe win64 oracleMismatch (7, 8) world0).2.1 = (7, 8) :=
  ⟨by decide,
    s_pipe_failure_keeps_filedes win64 oracleMismatch (7, 8) world0
      (by decide)⟩

/-- C7, as stated, fails: when `connect` fails, the listener (acquired
first) is closed first and the first endpoint after it; the handles are
closed in the order they were acquired, not in the reverse order. -/
theorem s_pipe_close_order :
    openedHandles win64 (s_pipe_calls win64 oracleConnectFails (0, 0) world0)
      = [100, 104] ∧
    closedHandles (s_pipe_calls win64 oracleConnectFails (0, 0) world0)
      = [100, 104] ∧
    closedHandles (s_pipe_calls win64 oracleConnectFails (0, 0) world0)
      ≠ (openedHandles win64
          (s_pipe_calls win64 oracleConnectFails (0, 0) world0)).reverse := by
  decide

/-- C7, amended. On every failing invocation the handles passed to
`closesocket` are exactly the handles acquired so far, in the order of their
acquisition: the listener, then the first endpoint (if opened), then the
accepted second endpoint (if opened); this holds whatever the outcome of
each close, so a failing close does not stop the remaining ones. -/
theorem s_pipe_closes_in_acquisition_order (p : Platform) (o : Oracle)
    (fd : Int × Int) (w : World) (h : (s_pipe p o fd w).1 = -1) :
    closedHandles (s_pipe_calls p o fd w)
      = openedHandles p (s_pipe_calls p o fd w) := by
  revert h
  rcases o with ⟨sL, bL, nL, lL, s0, c0, a1, p0, n1, cL, c0', c1, f0, f1⟩
  simp only [s_pipe_calls, s_pipe_eq]
  rcases sL with e | L
  · simp [*, s_pipe_socketL, os_socket, World.isSocket, s_pipe_fail, os_closesocket_trace, closedHandles, openedHandles]
  by_cases hL : L = INVALID_SOCKET p
  · simp [*, s_pipe_socketL, os_socket, World.isSocket, s_pipe_fail, os_closesocket_trace, closedHandles, openedHandles]
  simp [*, s_pipe_socketL, os_socket, World.isSocket]
  rcases bL with e | _
  · simp [*, s_pipe_bind, os_status, World.isSocket, World.log, s_pipe_fail, os_closesocket_trace, closedHandles, openedHandles]
  simp [*, s_pipe_bind, os_status, World.isSocket, World.log]
  rcases nL with e | ⟨a, n⟩
  · simp [*, s_pipe_getsockname, os_name, World.isSocket, World.log, s_pipe_fail, os_closesocket_trace, closedHandles, openedHandles]
  simp [*, s_pipe_getsockname, os_name, World.isSocket, World.log]
  rcases lL with e | _
  · simp [*, s_pipe_listen, os_status, World.isSocket, World.log, s_pipe_fail, os_closesocket_trace, closedHandles, openedHandles]
  simp [*, s_pipe_listen, os_status, World.isSocket, World.log]
  rcases s0 with e | S0
  · simp [*, s_pipe_socket0, os_socket, World.isSocket, s_pipe_fail, os_closesocket_trace, closedHandles, openedHandles]
  by_cases h0 : S0 = INVALID_SOCKET p
  · simp [*, s_pipe_socket0, os_socket, World.isSocket, s_pipe_fail, os_closesocket_trace, closedHandles, openedHandles]
  simp [*, s_pipe_socket0, os_socket, World.isSocket]
  rcases c0 with e | _
  · simp [*, s_pipe_connect, os_status, World.isSocket, World.log, s_pipe_fail, os_closesocket_trace, closedHandles, openedHandles]
  simp [*, s_pipe_connect, os_status, World.isSocket, World.log]
  rcases a1 with e | S1
  · by_cases hs : SOCKET_lt_zero p (INVALID_SOCKET p) = true
    · simp [*, s_pipe_accept, os_accept, World.isSocket, s_pipe_fail, os_closesocket_trace, closedHandles, openedHandles]
    simp [*, s_pipe_accept, os_accept, World.isSocket]
    rcases p0 with e | ⟨a', n'⟩
    · simp [*, s_pipe_peer0, os_name, World.isSocket, World.log, s_pipe_fail, os_closesocket_trace, closedHandles, openedHandles]
    simp [*, s_pipe_peer0, os_name, World.isSocket, World.log]
    simp [*, s_pipe_name1, os_name, World.isSocket, World.log, s_pipe_fail, os_closesocket_trace, closedHandles, openedHandles]
  by_cases h1 : S1 = INVALID_SOCKET p
  · subst h1
    by_cases hs : SOCKET_lt_zero p (INVALID_SOCKET p) = true
    · simp [*, s_pipe_accept, os_accept, World.isSocket, s_pipe_fail, os_closesocket_trace, closedHandles, openedHandles]
    simp [*, s_pipe_accept, os_accept, World.isSocket]
    rcases p0 with e | ⟨a', n'⟩
    · simp [*, s_pipe_peer0, os_name, World.isSocket, World.log, s_pipe_fail, os_closesocket_trace, closedHandles, openedHandles]
    simp [*, s_pipe_peer0, os_name, World.isSocket, World.log]
    simp [*, s_pipe_name1, os_name, World.isSocket, World.log, s_pipe_fail, os_closesocket_trace, closedHandles, openedHandles]
  by_cases hs : SOCKET_lt_zero p S1 = true
  · simp [*, s_pipe_accept, os_accept, World.isSocket, s_pipe_fail, os_closesocket_trace, closedHandles, openedHandles]
  simp [*, s_pipe_accept, os_accept, World.isSocket]
  rcases p0 with e | ⟨a', n'⟩
  · simp [*, s_pipe_peer0, os_name, World.isSocket, World.log, s_pipe_fail, os_closesocket_trace, closedHandles, openedHandles]
  simp [*, s_pipe_peer0, os_name, World.isSocket, World.log]
  rcases n1 with e | ⟨a2, n2⟩
  · simp [*, s_pipe_name1, os_name, World.isSocket, World.log, s_pipe_fail, os_closesocket_trace, closedHandles, openedHandles]
  simp [*, s_pipe_name1, os_name, World.isSocket, World.log]
  by_cases hm : n' ≠ n2 ∨ a'.sin_addr ≠ a2.sin_addr ∨ a'.sin_port ≠ a2.sin_port
  · simp [*, s_pipe_verify, World.isSocket, s_pipe_fail, os_closesocket_trace, closedHandles, openedHandles]
  cases hh : p.USE_SOCKETS_AS_HANDLES
  · rcases f0 with e0 | fd0 <;> rcases f1 with e1 | fd1 <;>
      simp [*, s_pipe_verify, s_pipe_done, World.isSocket, os_open_osfhandle]
  · simp [*, s_pipe_verify, s_pipe_done, World.isSocket]

/-- C7, amended, at a run whose verification fails and whose first two
closes fail: all three handles are passed to `closesocket`, in the order of
their acquisition. -/
theorem s_pipe_closes_in_acquisition_order_witness :
    (s_pipe win64 oracleClosesFail (0, 0) world0).1 = -1 ∧
    closedHandles (s_pipe_calls win64 oracleClosesFail (0, 0) world0)
      = [100, 104, 108] ∧
    closedHandles (s_pipe_calls win64 oracleClosesFail (0, 0) world0)
      = openedHandles win64
          (s_pipe_calls win64 oracleClosesFail (0, 0) world0) :=
  ⟨by decide, by decide,
    s_pipe_closes_in_acquisition_order win64 oracleClosesFail (0, 0) world0
      (by decide)⟩

/-- C8. If an invocation issues `connect`, then its first six calls are:
`socket`, `bind` of the listener to `AF_INET`, `htonl (INADDR_LOOPBACK)`,
port 0 (successful), `getsockname` on the listener (successful), `listen`
on the listener with backlog 1 (successful), `socket`, and that `connect`,
issued on the first endpoint with exactly the address and length that
`getsockname` reported for the listener. -/
theorem s_pipe_connect_target (p : Platform) (o : Oracle) (fd : Int × Int)
    (w : World) (s : Nat) (a : sockaddr_in) (n r : Int)
    (h : Event.connect s a n r ∈ s_pipe_calls p o fd w) :
    ∃ l, o.socketL = .ok l ∧ o.nameL = .ok (a, n) ∧ o.socket0 = .ok s ∧
      (s_pipe_calls p o fd w).take 6 =
        [Event.socket p.AF_INET p.SOCK_STREAM 0 l,
         Event.bind l ⟨p.AF_INET, 0, p.htonl p.INADDR_LOOPBACK⟩
           p.sizeof_sockaddr_in 0,
         Event.getsockname l p.sizeof_sockaddr_in 0,
         Event.listen l 1 0,
         Event.socket p.AF_INET p.SOCK_STREAM 0 s,
         Event.connect s a n r] := by
  revert h
  rcases o with ⟨sL, bL, nL, lL, s0, c0, a1, p0, n1, cL, c0', c1, f0, f1⟩
  simp only [s_pipe_calls, s_pipe_eq]
  rcases sL with e | L
  · simp [*, s_pipe_socketL, os_socket, World.isSocket, s_pipe_fail, os_closesocket_trace]
  by_cases hL : L = INVALID_SOCKET p
  · simp [*, s_pipe_socketL, os_socket, World.isSocket, s_pipe_fail, os_closesocket_trace]
  simp [*, s_pipe_socketL, os_socket, World.isSocket]
  rcases bL with e | _
  · simp [*, s_pipe_bind, os_status, World.isSocket, World.log, s_pipe_fail, os_closesocket_trace]
  simp [*, s_pipe_bind, os_status, World.isSocket, World.log]
  rcases nL with e | ⟨aL, nL⟩
  · simp [*, s_pipe_getsockname, os_name, World.isSocket, World.log, s_pipe_fail, os_closesocket_trace]
  simp [*, s_pipe_getsockname, os_name, World.isSocket, World.log]
  rcases lL with e | _
  · simp [*, s_pipe_listen, os_status, World.isSocket, World.log, s_pipe_fail, os_closesocket_trace]
  simp [*, s_pipe_listen, os_status, World.isSocket, World.log]
  rcases s0 with e | S0
  · simp [*, s_pipe_socket0, os_socket, World.isSocket, s_pipe_fail, os_closesocket_trace]
  by_cases h0 : S0 = INVALID_SOCKET p
  · simp [*, s_pipe_socket0, os_socket, World.isSocket, s_pipe_fail, os_closesocket_trace]
  simp [*, s_pipe_socket0, os_socket, World.isSocket]
  rcases c0 with e | _
  · (simp [*, s_pipe_connect, os_status, World.isSocket, World.log, s_pipe_fail, os_closesocket_trace]; rintro rfl rfl rfl rfl; simp)
  simp [*, s_pipe_connect, os_status, World.isSocket, World.log]
  rcases a1 with e | S1
  · by_cases hs : SOCKET_lt_zero p (INVALID_SOCKET p) = true
    · (simp [*, s_pipe_accept, os_accept, World.isSocket, s_pipe_fail, os_closesocket_trace]; rintro rfl rfl rfl rfl; simp)
    simp [*, s_pipe_accept, os_accept, World.isSocket]
    rcases p0 with e | ⟨a', n'⟩
    · (simp [*, s_pipe_peer0, os_name, World.isSocket, World.log, s_pipe_fail, os_closesocket_trace]; rintro rfl rfl rfl rfl; simp)
    simp [*, s_pipe_peer0, os_name, World.isSocket, World.log]
    (simp [*, s_pipe_name1, os_name, World.isSocket, World.log, s_pipe_fail, os_closesocket_trace]; rintro rfl rfl rfl rfl; simp)
  by_cases h1 : S1 = INVALID_SOCKET p
  · subst h1
    by_cases hs : SOCKET_lt_zero p (INVALID_SOCKET p) = true
    · (simp [*, s_pipe_accept, os_accept, World.isSocket, s_pipe_fail, os_closesocket_trace]; rintro rfl rfl rfl rfl; simp)
    simp [*, s_pipe_accept, os_accept, World.isSocket]
    rcases p0 with e | ⟨a', n'⟩
    · (simp [*, s_pipe_peer0, os_name, World.isSocket, World.log, s_pipe_fail, os_closesocket_trace]; rintro rfl rfl rfl rfl; simp)
    simp [*, s_pipe_peer0, os_name, World.isSocket, World.log]
    (simp [*, s_pipe_name1, os_name, World.isSocket, World.log, s_pipe_fail, os_closesocket_trace]; rintro rfl rfl rfl rfl; simp)
  by_cases hs : SOCKET_lt_zero p S1 = true
  · (simp [*, s_pipe_accept, os_accept, World.isSocket, s_pipe_fail, os_closesocket_trace]; rintro rfl rfl rfl rfl; simp)
  simp [*, s_pipe_accept, os_accept, World.isSocket]
  rcases p0 with e | ⟨a', n'⟩
  · (simp [*, s_pipe_peer0, os_name, World.isSocket, World.log, s_pipe_fail, os_closesocket_trace]; rintro rfl rfl rfl rfl; simp)
  simp [*, s_pipe_peer0, os_name, World.isSocket, World.log]
  rcases n1 with e | ⟨a2, n2⟩
  · (simp [*, s_pipe_name1, os_name, World.isSocket, World.log, s_pipe_fail, os_closesocket_trace]; rintro rfl rfl rfl rfl; simp)
  simp [*, s_pipe_name1, os_name, World.isSocket, World.log]
  by_cases hm : n' ≠ n2 ∨ a'.sin_addr ≠ a2.sin_addr ∨ a'.sin_port ≠ a2.sin_port
  · (simp [*, s_pipe_verify, World.isSocket, s_pipe_fail, os_closesocket_trace]; rintro rfl rfl rfl rfl; simp)
  cases hh : p.USE_SOCKETS_AS_HANDLES
  · rcases f0 with e0 | fd0 <;> rcases f1 with e1 | fd1 <;>
      (simp [*, s_pipe_verify, s_pipe_done, World.isSocket, os_open_osfhandle, os_closesocket_trace]; rintro rfl rfl rfl rfl; simp)
  · (simp [*, s_pipe_verify, s_pipe_done, World.isSocket, os_closesocket_trace]; rintro rfl rfl rfl rfl; simp)

/-- C8 at a run in which `connect` is issued and fails. -/
theorem s_pipe_connect_target_witness :
    Event.connect 104 (lo 50000) 16 (-1)
      ∈ s_pipe_calls win64 oracleConnectFails (0, 0) world0 ∧
    ∃ l, oracleConnectFails.socketL = .ok l ∧
      oracleConnectFails.nameL = .ok (lo 50000, 16) ∧
      oracleConnectFails.socket0 = .ok 104 ∧
      (s_pipe_calls win64 oracleConnectFails (0, 0) world0).take 6 =
        [Event.socket win64.AF_INET win64.SOCK_STREAM 0 l,
         Event.bind l ⟨win64.AF_INET, 0, win64.htonl win64.INADDR_LOOPBACK⟩
           win64.sizeof_sockaddr_in 0,
         Event.getsockname l win64.sizeof_sockaddr_in 0,
         Event.listen l 1 0,
         Event.socket win64.AF_INET win64.SOCK_STREAM 0 104,
         Event.connect 104 (lo 50000) 16 (-1)] :=
  ⟨by decide,
    s_pipe_connect_target win64 oracleConnectFails (0, 0) world0
      104 (lo 50000) 16 (-1) (by decide)⟩

/-- C9, at a failing `accept`. The failure of `accept` is not detected (the
same unsigned `< 0` test as in C4): after it the code still issues
`getpeername` on the first endpoint and `getsockname` on the invalid
handle, and only then the cleanup closes.  The seventh call is the failing
`accept`; two address queries follow it. -/
theorem s_pipe_accept_failure_calls :
    s_pipe_calls win64 oracleAcceptFails (0, 0) world0 =
      [Event.socket 2 1 0 100,
       Event.bind 100 ⟨2, 0, 0x0100007f⟩ 16 0,
       Event.getsockname 100 16 0,
       Event.listen 100 1 0,
       Event.socket 2 1 0 104,
       Event.connect 104 (lo 50000) 16 0,
       Event.accept 100 18446744073709551615,
       Event.getpeername 104 16 0,
       Event.getsockname 18446744073709551615 16 (-1),
       Event.closesocket 100 0,
       Event.closesocket 104 0] ∧
    ((s_pipe_calls win64 oracleAcceptFails (0, 0) world0).drop 7).filter
        Event.isSetup =
      [Event.getpeername 104 16 0,
       Event.getsockname 18446744073709551615 16 (-1)] := by
  decide

/-! ## Signal lookup: the claim -/

/-- C10, at an integer that does not fit an `int`. With a 64-bit `IV`, the
scalar 4294967297 matches no signal name and its integer value is not
between 0 and `SIG_SIZE`; the assignment to the `int` variable `signum`
keeps the low 32 bits, so `s_signum` returns 1 and `s_signum_croak` does not
raise. -/
theorem s_signum_truncates :
    perl64.fitsIV 4294967297 ∧
    (∀ j, 1 ≤ j → j < perl64.SIG_SIZE →
      "4294967297" ≠ perl64.PL_sig_name j) ∧
    ¬ ((0 : Int) < 4294967297 ∧ (4294967297 : Int) < perl64.SIG_SIZE) ∧
    s_signum perl64 ⟨"4294967297", 4294967297⟩ = 1 ∧
    s_signum_croak perl64 ⟨"4294967297", 4294967297⟩ = Except.ok 1 := by
  refine ⟨by unfold PerlConfig.fitsIV; decide, ?_, by decide, by decide,
    by rfl⟩
  intro j h1 h2
  have : j = 1 ∨ j = 2 ∨ j = 3 ∨ j = 4 := by
    simp [perl64] at h2; omega
  rcases this with rfl | rfl | rfl | rfl <;> decide

end Schmorp
